import Mathlib

/-!
Shallow embedding of `lib/web/JsonpTemplatePlugin.js` (webpack's jsonp
chunk-loading template plugin) and proofs about it.

External collaborators that are not part of the excerpt (the `Template`,
`RuntimeGlobals`, `JsonpHelpers` modules, the chunk graph, the tapable
hook classes) are modelled at their boundary: opaque string constants,
opaque input parameters, or explicit state, exactly where the plugin
consumes them.
-/

namespace Jsonp

/-- One character of `JSON.stringify` string escaping (backslash, quote,
newline; other control characters do not occur in the inputs used here). -/
def jsonEscapeChar (c : Char) : String :=
  if c = '\\' then "\\\\"
  else if c = '"' then "\\\""
  else if c = '\n' then "\\n"
  else String.singleton c

/-- Body of `JSON.stringify` on a string. -/
def jsonEscape (s : String) : String :=
  String.join (s.data.map jsonEscapeChar)

/-- `JSON.stringify` of a JavaScript string: quoted, escaped. -/
def jsonString (s : String) : String :=
  "\"" ++ jsonEscape s ++ "\""

/-- `JSON.stringify` of an array of numbers, e.g. `[1,2]`. -/
def jsonIntList (l : List Int) : String :=
  "[" ++ String.intercalate "," (l.map toString) ++ "]"

/-- `JSON.stringify` of an array whose elements are already serialized. -/
def jsonArr (items : List String) : String :=
  "[" ++ String.intercalate "," items ++ "]"

/-- Decimal rendering of the fractional part `r/1000` (`r < 1000`):
three zero-padded digits with trailing zeros removed, as JavaScript's
shortest-representation `Number → String` conversion produces. -/
def frac1000 (r : Nat) : String :=
  let padded := String.mk (List.replicate (3 - (toString r).length) '0') ++ toString r
  String.mk (padded.data.reverse.dropWhile (· = '0')).reverse

/-- JavaScript `String(n / 1000)` for a natural number `n` (float division
followed by number-to-string conversion). -/
def jsDiv1000 (n : Nat) : String :=
  if n % 1000 = 0 then toString (n / 1000)
  else toString (n / 1000) ++ "." ++ frac1000 (n % 1000)

/-!
## Attribute values

The attribute-spec object literals in the source map attribute names to
JavaScript values that are either an array of 1–2 expression strings or —
for `onload` / `onerror` — a bare string.  `renderAttributes` indexes the
value with `[0]` / `[1]` and reads `.length`; on a string those are
character indexing and character count, which the embedding reproduces.
-/

/-- A value in an attribute-spec object: an array of expression strings,
or a bare string (as the source writes for `onload` / `onerror`). -/
inductive AttrVal where
  | arr : List String → AttrVal
  | str : String → AttrVal
deriving DecidableEq, Repr

/-- JavaScript `.length` of the value. -/
def AttrVal.length : AttrVal → Nat
  | .arr l => l.length
  | .str s => s.length

/-- JavaScript `value[i]` coerced to a string by template interpolation:
array element, or single character of a string; `"undefined"` when out of
range. -/
def AttrVal.get : AttrVal → Nat → String
  | .arr l, i => l.getD i "undefined"
  | .str s, i =>
    match s.data[i]? with
    | some c => String.singleton c
    | none => "undefined"

/-- `Template.indent` on a single-line string: prefix a tab (the
`Template` module is outside the excerpt; `renderAttributes` only ever
indents the single-line setter). -/
def indent (s : String) : String := "\t" ++ s

/-- `JsonpTemplatePlugin.renderAttributes`: for each entry of the
attribute spec, in insertion order, emit `varName.key = value[0];`,
wrapped in `if (value[1]) { ... }` when `value.length > 1`. -/
def renderAttributes (varName : String) (attributes : List (String × AttrVal)) :
    List String :=
  (attributes.map fun kv =>
    let setter := varName ++ "." ++ kv.1 ++ " = " ++ kv.2.get 0 ++ ";"
    if kv.2.length > 1 then
      ["if (" ++ kv.2.get 1 ++ ") \x7b", indent setter, "\x7d"]
    else
      [setter]).flatten

/-!
## RuntimeGlobals expressions used inside generated code

The `RuntimeGlobals` module is outside the excerpt; only the identity of
these expression strings matters to the plugin.
-/

def scriptNonce : String := "__webpack_require__.nc"

def publicPathExpr : String := "__webpack_require__.p"

def getChunkScriptFilenameExpr : String := "__webpack_require__.u"

/-- The slice of `compilation.outputOptions` read by the tag builders. -/
structure ScriptOptions where
  jsonpScriptType : Option String
  crossOriginLoading : Option String
  chunkLoadTimeout : Nat
deriving DecidableEq, Repr

/-- The attribute-spec object literal built by the `jsonpScript` tap
(before it is handed to the `mutateTag` hook), in insertion order. -/
def scriptTagAttributes (o : ScriptOptions) : List (String × AttrVal) :=
  (match o.jsonpScriptType with
   | some t => [("type", AttrVal.arr [jsonString t])]
   | none => []) ++
  [("charset", AttrVal.arr [jsonString "utf-8"]),
   ("timeout", AttrVal.arr [jsonString (jsDiv1000 o.chunkLoadTimeout)]),
   ("nonce", AttrVal.arr [scriptNonce, scriptNonce]),
   ("src", AttrVal.arr ["url"])] ++
  (match o.crossOriginLoading with
   | some col =>
     [("crossOrigin", AttrVal.arr [jsonString col,
        "script.src.indexOf(window.location.origin + '/') !== 0"])]
   | none => []) ++
  [("onload", AttrVal.str "onScriptComplete"),
   ("onerror", AttrVal.str "onScriptComplete")]

/-- The attribute-spec object literal built by the `linkPreload` tap, in
insertion order. -/
def linkPreloadAttributes (o : ScriptOptions) : List (String × AttrVal) :=
  (match o.jsonpScriptType with
   | some t => [("type", AttrVal.arr [jsonString t])]
   | none => []) ++
  [("charset", AttrVal.arr [jsonString "utf-8"]),
   ("nonce", AttrVal.arr [scriptNonce, scriptNonce]),
   ("rel", AttrVal.arr [jsonString "preload"]),
   ("as", AttrVal.arr [jsonString "script"]),
   ("href", AttrVal.arr
     [publicPathExpr ++ " + " ++ getChunkScriptFilenameExpr ++ "(chunkId)"])] ++
  (match o.crossOriginLoading with
   | some col =>
     [("crossOrigin", AttrVal.arr [jsonString col,
        "link.href.indexOf(window.location.origin + '/') !== 0"])]
   | none => [])

/-- The attribute-spec object literal built by the `linkPrefetch` tap, in
insertion order. -/
def linkPrefetchAttributes (o : ScriptOptions) : List (String × AttrVal) :=
  [("nonce", AttrVal.arr [scriptNonce, scriptNonce]),
   ("rel", AttrVal.arr [jsonString "prefetch"]),
   ("as", AttrVal.arr [jsonString "script"]),
   ("href", AttrVal.arr
     [publicPathExpr ++ " + " ++ getChunkScriptFilenameExpr ++ "(chunkId)"])] ++
  (match o.crossOriginLoading with
   | some col => [("crossOrigin", AttrVal.arr [jsonString col])]
   | none => [])

/-!
## Manifest / protocol emitter (`hooks.renderChunk` tap)

`getEntryInfo` (from `JsonpHelpers`, outside the excerpt) is modelled as
an opaque input: the list of already-serialized entry elements whose
`JSON.stringify` is their bracketed comma-join.  The rendered runtime
modules block (`Template.renderChunkRuntimeModules`, outside the excerpt)
is an opaque function parameter; the plugin itself only gates it on
`runtimeModules.length > 0` and places it.  `ConcatSource` additions are
string concatenation.
-/

/-- Inputs of the `renderChunk` tap: the chunk fields it reads, the
output options it reads, the rendered module map, the entry info for the
chunk, and the chunk's runtime modules. -/
structure RenderInput where
  isHotUpdate : Bool
  chunkId : Int
  chunkIds : List Int
  globalObject : String
  jsonpFunction : String
  hotUpdateFunction : String
  modules : String
  entries : List String
  runtimeModules : List String
deriving DecidableEq, Repr

/-- The `renderChunk` tap of `JsonpTemplatePlugin`:
hot-update chunks get `<g>[<hotFn>](<id>,<modules>[,\n<runtime>])`; normal
chunks get the guarded `push` of `[<ids>,<modules>[,<entries>|,0][,\n<runtime>]]`. -/
def renderChunk (renderChunkRuntimeModules : List String → String)
    (c : RenderInput) : String :=
  let runtimePart : Option String :=
    if c.runtimeModules.length > 0 then
      some (renderChunkRuntimeModules c.runtimeModules)
    else none
  if c.isHotUpdate then
    c.globalObject ++ "[" ++ jsonString c.hotUpdateFunction ++ "](" ++
    toString c.chunkId ++ "," ++ c.modules ++
    (match runtimePart with
     | some r => ",\n" ++ r
     | none => "") ++ ")"
  else
    let entriesPart : Option String :=
      if c.entries.length > 0 then some ("," ++ jsonArr c.entries) else none
    "(" ++ c.globalObject ++ "[" ++ jsonString c.jsonpFunction ++ "] = " ++
    c.globalObject ++ "[" ++ jsonString c.jsonpFunction ++ "] || []).push([" ++
    jsonIntList c.chunkIds ++ "," ++ c.modules ++
    (match entriesPart, runtimePart with
     | some e, _ => e
     | none, some _ => ",0"
     | none, none => "") ++
    (match runtimePart with
     | some r => ",\n" ++ r
     | none => "") ++ "])"

/-!
## The generated script-loading state machine (`onScriptComplete`)

The generated code declares a mutable binding `onScriptComplete`, hooks
it to `script.onload` / `script.onerror` (the listener slots keep the
original closure), arms `setTimeout(() => onScriptComplete({type:
'timeout', target: script}), chunkLoadTimeout)`, and pre-allocates an
`Error`.  The closure body, on its first run, overwrites the binding with
a no-op, nulls both listener slots, clears the timer, then calls
`loadingEnded()` and — only when that returns a truthy reporter —
normalizes the event into the pre-allocated error and reports it.  The
embedding makes every piece of that mutable state explicit and lets an
arbitrary sequence of event-source firings drive it.
-/

/-- The event value handed to the completion handler: its `type` string
and `event.target && event.target.src`. -/
structure ScriptEvent where
  type : String
  targetSrc : Option String
deriving DecidableEq, Repr

/-- The structured error the generated code populates. -/
structure ChunkError where
  message : String
  name : String
  errType : String
  request : Option String
deriving DecidableEq, Repr

/-- JavaScript coercion of a possibly-`undefined` string into a string
(template/`+` concatenation renders `undefined` as `"undefined"`). -/
def jsCoerce : Option String → String
  | some s => s
  | none => "undefined"

/-- `var errorType = event && (event.type === 'load' ? 'missing' :
event.type);` (the handler is only ever invoked with an event object). -/
def errorTypeOf (event : ScriptEvent) : String :=
  if event.type = "load" then "missing" else event.type

/-- The error-population block of `onScriptComplete`. -/
def fillError (chunkId : String) (event : ScriptEvent) : ChunkError :=
  { message := "Loading chunk " ++ chunkId ++ " failed.\n(" ++
      errorTypeOf event ++ ": " ++ jsCoerce event.targetSrc ++ ")"
    name := "ChunkLoadError"
    errType := errorTypeOf event
    request := event.targetSrc }

/-- Per-attempt configuration: the chunk id interpolated into the
message, the script element's resolved `src`, and whether `loadingEnded()`
returns a truthy reporter (failure path) or a falsy value (success path). -/
structure LoadConfig where
  chunkId : String
  src : Option String
  loadingEnded : Bool
deriving DecidableEq, Repr

/-- Mutable state of one load attempt: whether the `onScriptComplete`
binding still holds the real closure, whether the `onload` / `onerror`
listener slots are still attached, whether the timer is still armed, how
often the reporter has been invoked, and the last reported error. -/
structure LoadState where
  bindingActive : Bool
  onloadAttached : Bool
  onerrorAttached : Bool
  timerActive : Bool
  reports : Nat
  lastError : Option ChunkError
deriving DecidableEq, Repr

/-- State right after the generated prologue ran: binding live, both
listeners attached, timer armed, nothing reported. -/
def initLoadState : LoadState :=
  { bindingActive := true
    onloadAttached := true
    onerrorAttached := true
    timerActive := true
    reports := 0
    lastError := none }

/-- Body of the real `onScriptComplete` closure: overwrite the binding
with a no-op, null both listener slots, clear the timer, call
`loadingEnded()` and report the normalized error iff it returned a
truthy reporter. -/
def runHandler (cfg : LoadConfig) (event : ScriptEvent) (s : LoadState) :
    LoadState :=
  { bindingActive := false
    onloadAttached := false
    onerrorAttached := false
    timerActive := false
    reports := if cfg.loadingEnded then s.reports + 1 else s.reports
    lastError := if cfg.loadingEnded then some (fillError cfg.chunkId event)
      else s.lastError }

/-- The three independent event sources that can fire for one attempt. -/
inductive LoadEvent where
  | success
  | failure
  | timerFire
deriving DecidableEq, Repr

/-- The DOM success event (`type: 'load'`, target the script element). -/
def successEvent (cfg : LoadConfig) : ScriptEvent :=
  { type := "load", targetSrc := cfg.src }

/-- The DOM failure event (`type: 'error'`, target the script element). -/
def failureEvent (cfg : LoadConfig) : ScriptEvent :=
  { type := "error", targetSrc := cfg.src }

/-- The timer callback's synthetic event
`{ type: 'timeout', target: script }`. -/
def timeoutEvent (cfg : LoadConfig) : ScriptEvent :=
  { type := "timeout", targetSrc := cfg.src }

/-- One event-source firing.  A DOM event invokes the listener slot —
which holds the original closure — only while still attached; the timer,
if still armed, invokes whatever the `onScriptComplete` binding currently
holds (the real closure or the no-op). -/
def step (cfg : LoadConfig) (e : LoadEvent) (s : LoadState) : LoadState :=
  match e with
  | .success => if s.onloadAttached then runHandler cfg (successEvent cfg) s else s
  | .failure => if s.onerrorAttached then runHandler cfg (failureEvent cfg) s else s
  | .timerFire =>
    if s.timerActive then
      if s.bindingActive then runHandler cfg (timeoutEvent cfg) s else s
    else s

/-- Run a whole interleaving of event-source firings. -/
def runEvents (cfg : LoadConfig) (evs : List LoadEvent) (s : LoadState) :
    LoadState :=
  evs.foldl (fun s e => step cfg e s) s

/-- A completed attempt: binding overwritten, both listeners detached,
timer cleared. -/
def completed (s : LoadState) : Prop :=
  s.bindingActive = false ∧ s.onloadAttached = false ∧
    s.onerrorAttached = false ∧ s.timerActive = false

instance (s : LoadState) : Decidable (completed s) := by
  unfold completed; infer_instance

/-!
## Runtime-requirement propagator

The capability tags are the `RuntimeGlobals` constants the plugin adds;
a chunk's propagation state is its membership in the per-compilation
`onceForChunkSet` marker, its runtime-requirement set, and the number of
runtime modules the plugin has attached to it.  `set.add` is `Finset`
insertion (written as union with the literal set of tags a listener
adds).
-/

/-- The `RuntimeGlobals` capability tags this plugin touches. -/
inductive RG where
  | moduleFactoriesAddOnly
  | hasOwnProperty
  | publicPath
  | getChunkScriptFilename
  | getChunkUpdateScriptFilename
  | moduleCache
  | hmrModuleData
  | getUpdateManifestFilename
  | startup
  | startupNoDefault
  | require
deriving DecidableEq, Repr

/-- Per-chunk propagation state: the `onceForChunkSet` marker, the
chunk's runtime-requirement (capability) set, and how many runtime
modules the plugin attached. -/
structure PropState where
  marked : Bool
  reqs : Finset RG
  attached : Nat
deriving DecidableEq

/-- Add a fixed set of capability tags (a sequence of `set.add` calls). -/
def addReqs (a : Finset RG) (s : PropState) : PropState :=
  { s with reqs := s.reqs ∪ a }

/-- The shared first-occurrence `handler`: a no-op once the chunk is
marked; otherwise mark it, add the two baseline capabilities, and attach
one `JsonpChunkLoadingRuntimeModule`. -/
def handler (s : PropState) : PropState :=
  if s.marked then s
  else
    { marked := true
      reqs := s.reqs ∪ {RG.moduleFactoriesAddOnly, RG.hasOwnProperty}
      attached := s.attached + 1 }

/-- The `ensureChunkHandlers`-specific listener. -/
def ensureChunkListener (s : PropState) : PropState :=
  addReqs {RG.publicPath, RG.getChunkScriptFilename} s

/-- The `hmrDownloadUpdateHandlers`-specific listener. -/
def hmrDownloadListener (s : PropState) : PropState :=
  addReqs {RG.publicPath, RG.getChunkUpdateScriptFilename, RG.moduleCache,
    RG.hmrModuleData, RG.moduleFactoriesAddOnly} s

/-- The `hmrDownloadManifest`-specific listener. -/
def hmrManifestListener (s : PropState) : PropState :=
  addReqs {RG.publicPath, RG.getUpdateManifestFilename} s

/-- The `additionalTreeRuntimeRequirements` listener, with the
`needEntryDeferringCode` policy result as a boolean input: when deferring
is needed it adds `startup` / `startupNoDefault`, runs the shared
`handler`, and (second `if (withDefer)` block in the source) adds
`require`. -/
def treeListener (withDefer : Bool) (s : PropState) : PropState :=
  if withDefer then
    addReqs {RG.require} (handler (addReqs {RG.startup, RG.startupNoDefault} s))
  else s

/-- The listeners that fire for a chunk during one propagation pass,
given which of the three requirement triggers are present in the chunk's
tree and the deferring policy: each present trigger fires both the shared
`handler` tap and its specific tap, and the tree-wide listener always
runs. -/
def passListeners (ec hd hm wd : Bool) : List (PropState → PropState) :=
  (if ec then [handler, ensureChunkListener] else []) ++
  (if hd then [handler, hmrDownloadListener] else []) ++
  (if hm then [handler, hmrManifestListener] else []) ++
  [treeListener wd]

/-- Run a list of listeners in order. -/
def runPass (ls : List (PropState → PropState)) (s : PropState) : PropState :=
  ls.foldl (fun s f => f s) s

/-!
## Hash contributor (`hooks.chunkHash` tap)

A hash is modelled as the list of `hash.update` arguments it received
from this tap, in order.  `JSON.stringify(getEntryInfo(chunkGraph,
chunk))` is an opaque per-chunk input (its producer lives outside the
excerpt); the chunk's rendered module code is carried in the model state
to express that the tap never reads it.
-/

/-- The chunk data in scope for the `chunkHash` tap. -/
structure ChunkForHash where
  hasRuntime : Bool
  entryInfo : String
  moduleCode : String
deriving DecidableEq, Repr

/-- The output options the `chunkHash` tap reads. -/
structure HashOptions where
  jsonpFunction : String
  hotUpdateFunction : String
  globalObject : String
deriving DecidableEq, Repr

/-- The `chunkHash` tap: nothing for a runtime chunk, otherwise the six
`hash.update` calls in source order. -/
def chunkHashUpdates (c : ChunkForHash) (o : HashOptions) : List String :=
  if c.hasRuntime then []
  else
    ["JsonpTemplatePlugin", "1", c.entryInfo,
     o.jsonpFunction, o.hotUpdateFunction, o.globalObject]

/-!
## Compilation-hooks registry (`getCompilationHooks`)

The argument is either a `Compilation` instance (identified by object
identity, a `Nat`) or any other value (`instanceof` fails).  The
`WeakMap` registry is an association list keyed by compilation identity;
hook-object and pipeline identity is modelled with a fresh-identity
counter so that "same instance" is expressible.
-/

/-- A value passed to `getCompilationHooks`. -/
inductive CompilationArg where
  | compilation : Nat → CompilationArg
  | notCompilation
deriving DecidableEq, Repr

/-- The four per-compilation waterfall pipelines, by instance identity. -/
structure JsonpHooks where
  jsonpScriptId : Nat
  linkPreloadId : Nat
  linkPrefetchId : Nat
  mutateTagId : Nat
deriving DecidableEq, Repr

/-- The `compilationHooksMap` `WeakMap` plus a fresh-identity source. -/
structure HooksRegistry where
  table : List (Nat × JsonpHooks)
  fresh : Nat
deriving DecidableEq, Repr

/-- `JsonpTemplatePlugin.getCompilationHooks`: type-error on a
non-`Compilation` argument (registry untouched); otherwise return the
cached hooks object, creating and caching four fresh pipelines on the
first call for that compilation. -/
def getCompilationHooks (arg : CompilationArg) (reg : HooksRegistry) :
    Except String JsonpHooks × HooksRegistry :=
  match arg with
  | .notCompilation =>
    (Except.error "The 'compilation' argument must be an instance of Compilation",
      reg)
  | .compilation i =>
    match reg.table.lookup i with
    | some hooks => (Except.ok hooks, reg)
    | none =>
      let hooks : JsonpHooks :=
        { jsonpScriptId := reg.fresh
          linkPreloadId := reg.fresh + 1
          linkPrefetchId := reg.fresh + 2
          mutateTagId := reg.fresh + 3 }
      (Except.ok hooks,
        { table := (i, hooks) :: reg.table, fresh := reg.fresh + 4 })

/-!
## Theorems
-/

/-- C5: `renderAttributes` emits, for each entry of the spec in insertion
order, the assignment `target.attr = valueExpr;`, wrapped in
`if (guardExpr) { ... }` exactly when a guard expression is present, and
the emitted blocks appear in the insertion order of the input mapping. -/
theorem renderAttributes_insertion_order :
    ∀ (varName : String) (pre post : List (String × AttrVal)) (k v g : String),
      renderAttributes varName (pre ++ [(k, AttrVal.arr [v])] ++ post) =
        renderAttributes varName pre ++
          [varName ++ "." ++ k ++ " = " ++ v ++ ";"] ++
          renderAttributes varName post ∧
      renderAttributes varName (pre ++ [(k, AttrVal.arr [v, g])] ++ post) =
        renderAttributes varName pre ++
          ["if (" ++ g ++ ") \x7b",
           "\t" ++ varName ++ "." ++ k ++ " = " ++ v ++ ";",
           "\x7d"] ++
          renderAttributes varName post := by
  intro varName pre post k v g
  constructor <;>
    simp [renderAttributes, AttrVal.get, AttrVal.length, indent,
      String.append_assoc]

/-- C10: each of the three tag-building attribute specs contains, for
every output configuration, a `nonce` attribute whose guard expression is
identical to its value expression (the runtime nonce global), and the
renderer turns it into an assignment gated only on that expression. -/
theorem nonce_attribute_always_present :
    ∀ (o : ScriptOptions),
      (scriptTagAttributes o).lookup "nonce" =
        some (AttrVal.arr [scriptNonce, scriptNonce]) ∧
      (linkPreloadAttributes o).lookup "nonce" =
        some (AttrVal.arr [scriptNonce, scriptNonce]) ∧
      (linkPrefetchAttributes o).lookup "nonce" =
        some (AttrVal.arr [scriptNonce, scriptNonce]) ∧
      ∀ (v : String),
        renderAttributes v [("nonce", AttrVal.arr [scriptNonce, scriptNonce])] =
          ["if (" ++ scriptNonce ++ ") \x7b",
           "\t" ++ v ++ "." ++ "nonce" ++ " = " ++ scriptNonce ++ ";",
           "\x7d"] := by
  intro o
  obtain ⟨t, col, timeout⟩ := o
  cases t <;> cases col <;>
    simp [scriptTagAttributes, linkPreloadAttributes, linkPrefetchAttributes,
      renderAttributes, AttrVal.get, AttrVal.length, indent, List.lookup,
      String.append_assoc, scriptNonce]

/-- Concrete output configuration: no script MIME type, no cross-origin
policy, a 120000 ms chunk-load timeout. -/
def scriptOpts0 : ScriptOptions :=
  { jsonpScriptType := none, crossOriginLoading := none,
    chunkLoadTimeout := 120000 }

/-- C6: at the default-like configuration `scriptOpts0`, rendering the
script-tag attribute spec does NOT produce well-formed assignments of
the completion handler: because `onload` / `onerror` map to the bare
string `"onScriptComplete"` (not a one-element array), the renderer
indexes it character-wise (`[0] = "o"`, `[1] = "n"`, `length = 16 > 1`)
and emits `if (n) { script.onload = o; }` instead of
`script.onload = onScriptComplete;`. -/
theorem scriptTag_handler_attributes_mangled :
    renderAttributes "script" (scriptTagAttributes scriptOpts0) =
      ["script.charset = \"utf-8\";",
       "script.timeout = \"120\";",
       "if (__webpack_require__.nc) \x7b",
       "\tscript.nonce = __webpack_require__.nc;",
       "\x7d",
       "script.src = url;",
       "if (n) \x7b",
       "\tscript.onload = o;",
       "\x7d",
       "if (n) \x7b",
       "\tscript.onerror = o;",
       "\x7d"] ∧
    "script.onload = onScriptComplete;" ∉
      renderAttributes "script" (scriptTagAttributes scriptOpts0) ∧
    "script.onerror = onScriptComplete;" ∉
      renderAttributes "script" (scriptTagAttributes scriptOpts0) := by
  refine ⟨by rfl, ?_, ?_⟩ <;> decide

/-- C1: a non-hot-update chunk renders as the guarded `push` of the
chunk-ids array and module map, with no third element when there are
neither entries nor runtime statements, the serialized entry array as
third element when entries exist, and a literal `0` third element
followed by the runtime statements when there are no entries but runtime
statements exist; a hot-update chunk renders as the direct call carrying
its single chunk id (never the id set) and module map, with the runtime
statements as optional last argument. -/
theorem renderChunk_wire_shapes :
    ∀ (rrm : List String → String) (c : RenderInput),
      (c.isHotUpdate = false → c.entries = [] → c.runtimeModules = [] →
        renderChunk rrm c =
          "(" ++ c.globalObject ++ "[" ++ jsonString c.jsonpFunction ++ "] = " ++
          c.globalObject ++ "[" ++ jsonString c.jsonpFunction ++
          "] || []).push([" ++ jsonIntList c.chunkIds ++ "," ++ c.modules ++
          "])") ∧
      (c.isHotUpdate = false → c.entries ≠ [] → c.runtimeModules = [] →
        renderChunk rrm c =
          "(" ++ c.globalObject ++ "[" ++ jsonString c.jsonpFunction ++ "] = " ++
          c.globalObject ++ "[" ++ jsonString c.jsonpFunction ++
          "] || []).push([" ++ jsonIntList c.chunkIds ++ "," ++ c.modules ++
          "," ++ jsonArr c.entries ++ "])") ∧
      (c.isHotUpdate = false → c.entries = [] → c.runtimeModules ≠ [] →
        renderChunk rrm c =
          "(" ++ c.globalObject ++ "[" ++ jsonString c.jsonpFunction ++ "] = " ++
          c.globalObject ++ "[" ++ jsonString c.jsonpFunction ++
          "] || []).push([" ++ jsonIntList c.chunkIds ++ "," ++ c.modules ++
          ",0" ++ ",\n" ++ rrm c.runtimeModules ++ "])") ∧
      (c.isHotUpdate = false → c.entries ≠ [] → c.runtimeModules ≠ [] →
        renderChunk rrm c =
          "(" ++ c.globalObject ++ "[" ++ jsonString c.jsonpFunction ++ "] = " ++
          c.globalObject ++ "[" ++ jsonString c.jsonpFunction ++
          "] || []).push([" ++ jsonIntList c.chunkIds ++ "," ++ c.modules ++
          "," ++ jsonArr c.entries ++ ",\n" ++ rrm c.runtimeModules ++ "])") ∧
      (c.isHotUpdate = true → c.runtimeModules = [] →
        renderChunk rrm c =
          c.globalObject ++ "[" ++ jsonString c.hotUpdateFunction ++ "](" ++
          toString c.chunkId ++ "," ++ c.modules ++ ")") ∧
      (c.isHotUpdate = true → c.runtimeModules ≠ [] →
        renderChunk rrm c =
          c.globalObject ++ "[" ++ jsonString c.hotUpdateFunction ++ "](" ++
          toString c.chunkId ++ "," ++ c.modules ++
          ",\n" ++ rrm c.runtimeModules ++ ")") := by
  intro rrm c
  have fuse : ∀ x : String, ",0" ++ (",\n" ++ x) = ",0,\n" ++ x := by
    intro x; rw [← String.append_assoc]; rfl
  refine ⟨?_, ?_, ?_, ?_, ?_, ?_⟩ <;> intro h1 h2 <;>
    first
      | (intro h3 ;
         simp [renderChunk, h1, h2, h3, List.length_pos, String.append_assoc,
           fuse])
      | simp [renderChunk, h1, h2, List.length_pos, String.append_assoc]

/-- C1 witness: the four normal-chunk shapes and the two hot-update
shapes at concrete inputs. -/
theorem renderChunk_wire_shapes_witness :
    (renderChunk (fun l => String.intercalate "\n" l)
        { isHotUpdate := false, chunkId := 1, chunkIds := [1, 2],
          globalObject := "window", jsonpFunction := "webpackJsonp",
          hotUpdateFunction := "webpackHotUpdate", modules := "\x7b\x7d",
          entries := [], runtimeModules := [] } =
      "(" ++ "window" ++ "[" ++ jsonString "webpackJsonp" ++ "] = " ++
      "window" ++ "[" ++ jsonString "webpackJsonp" ++ "] || []).push([" ++
      jsonIntList [1, 2] ++ "," ++ "\x7b\x7d" ++ "])") ∧
    (renderChunk (fun l => String.intercalate "\n" l)
        { isHotUpdate := false, chunkId := 1, chunkIds := [1, 2],
          globalObject := "window", jsonpFunction := "webpackJsonp",
          hotUpdateFunction := "webpackHotUpdate", modules := "\x7b\x7d",
          entries := ["[[0],0]"], runtimeModules := [] } =
      "(" ++ "window" ++ "[" ++ jsonString "webpackJsonp" ++ "] = " ++
      "window" ++ "[" ++ jsonString "webpackJsonp" ++ "] || []).push([" ++
      jsonIntList [1, 2] ++ "," ++ "\x7b\x7d" ++ "," ++ jsonArr ["[[0],0]"] ++
      "])") ∧
    (renderChunk (fun l => String.intercalate "\n" l)
        { isHotUpdate := false, chunkId := 1, chunkIds := [1, 2],
          globalObject := "window", jsonpFunction := "webpackJsonp",
          hotUpdateFunction := "webpackHotUpdate", modules := "\x7b\x7d",
          entries := [], runtimeModules := ["runtime();"] } =
      "(" ++ "window" ++ "[" ++ jsonString "webpackJsonp" ++ "] = " ++
      "window" ++ "[" ++ jsonString "webpackJsonp" ++ "] || []).push([" ++
      jsonIntList [1, 2] ++ "," ++ "\x7b\x7d" ++ ",0" ++ ",\n" ++
      "runtime();" ++ "])") ∧
    (renderChunk (fun l => String.intercalate "\n" l)
        { isHotUpdate := false, chunkId := 1, chunkIds := [1, 2],
          globalObject := "window", jsonpFunction := "webpackJsonp",
          hotUpdateFunction := "webpackHotUpdate", modules := "\x7b\x7d",
          entries := ["[[0],0]"], runtimeModules := ["runtime();"] } =
      "(" ++ "window" ++ "[" ++ jsonString "webpackJsonp" ++ "] = " ++
      "window" ++ "[" ++ jsonString "webpackJsonp" ++ "] || []).push([" ++
      jsonIntList [1, 2] ++ "," ++ "\x7b\x7d" ++ "," ++ jsonArr ["[[0],0]"] ++
      ",\n" ++ "runtime();" ++ "])") ∧
    (renderChunk (fun l => String.intercalate "\n" l)
        { isHotUpdate := true, chunkId := 7, chunkIds := [7],
          globalObject := "window", jsonpFunction := "webpackJsonp",
          hotUpdateFunction := "webpackHotUpdate",
          modules := "\x7b\"a\":1\x7d",
          entries := [], runtimeModules := [] } =
      "window" ++ "[" ++ jsonString "webpackHotUpdate" ++ "](" ++
      toString (7 : Int) ++ "," ++ "\x7b\"a\":1\x7d" ++ ")") ∧
    (renderChunk (fun l => String.intercalate "\n" l)
        { isHotUpdate := true, chunkId := 7, chunkIds := [7],
          globalObject := "window", jsonpFunction := "webpackJsonp",
          hotUpdateFunction := "webpackHotUpdate",
          modules := "\x7b\"a\":1\x7d",
          entries := [], runtimeModules := ["runtime();"] } =
      "window" ++ "[" ++ jsonString "webpackHotUpdate" ++ "](" ++
      toString (7 : Int) ++ "," ++ "\x7b\"a\":1\x7d" ++ ",\n" ++
      "runtime();" ++ ")") := by
  refine ⟨?_, ?_, ?_, ?_, ?_, ?_⟩
  · exact (renderChunk_wire_shapes (fun l => String.intercalate "\n" l) _).1
      rfl rfl rfl
  · exact (renderChunk_wire_shapes (fun l => String.intercalate "\n" l) _).2.1
      rfl (by decide) rfl
  · exact (renderChunk_wire_shapes (fun l => String.intercalate "\n" l) _).2.2.1
      rfl rfl (by decide)
  · exact (renderChunk_wire_shapes (fun l => String.intercalate "\n" l) _).2.2.2.1
      rfl (by decide) (by decide)
  · exact (renderChunk_wire_shapes (fun l => String.intercalate "\n" l) _).2.2.2.2.1
      rfl rfl
  · exact (renderChunk_wire_shapes (fun l => String.intercalate "\n" l) _).2.2.2.2.2
      rfl (by decide)

/-- A completed state is inert: no event source can change it. -/
theorem step_of_completed (cfg : LoadConfig) (e : LoadEvent) (s : LoadState)
    (h : completed s) : step cfg e s = s := by
  obtain ⟨h1, h2, h3, h4⟩ := h
  cases e <;> simp [step, h1, h2, h3, h4]

/-- Running the real handler always leaves a completed state. -/
theorem runHandler_completed (cfg : LoadConfig) (ev : ScriptEvent)
    (s : LoadState) : completed (runHandler cfg ev s) := by
  simp [runHandler, completed]

/-- Invariant driven through every interleaving: the state is either
still the initial one or completed with at most one report delivered. -/
def loadInv (s : LoadState) : Prop :=
  s = initLoadState ∨ (completed s ∧ s.reports ≤ 1)

theorem step_loadInv (cfg : LoadConfig) (e : LoadEvent) (s : LoadState)
    (h : loadInv s) : loadInv (step cfg e s) := by
  rcases h with h | ⟨hc, hr⟩
  · subst h
    cases e <;>
      · right
        constructor
        · simp [step, initLoadState, runHandler, completed]
        · simp [step, initLoadState, runHandler]
          cases cfg.loadingEnded <;> simp
  · rw [step_of_completed cfg e s hc]
    exact Or.inr ⟨hc, hr⟩

theorem runEvents_loadInv (cfg : LoadConfig) (evs : List LoadEvent)
    (s : LoadState) (h : loadInv s) : loadInv (runEvents cfg evs s) := by
  induction evs generalizing s with
  | nil => exact h
  | cons e evs ih =>
    exact ih (step cfg e s) (step_loadInv cfg e s h)

/-- C2: over every interleaving of success, failure and timer firings
the reporter is invoked at most once; the first run of the completion
handler overwrites the handler binding with a no-op, detaches both
listeners and cancels the timer; and once completed, no further firing
of any event source changes anything. -/
theorem onScriptComplete_at_most_once :
    ∀ (cfg : LoadConfig) (evs : List LoadEvent),
      (runEvents cfg evs initLoadState).reports ≤ 1 ∧
      (∀ (ev : ScriptEvent) (s : LoadState),
        (runHandler cfg ev s).bindingActive = false ∧
        (runHandler cfg ev s).onloadAttached = false ∧
        (runHandler cfg ev s).onerrorAttached = false ∧
        (runHandler cfg ev s).timerActive = false) ∧
      (∀ (e : LoadEvent) (s : LoadState), completed s → step cfg e s = s) := by
  intro cfg evs
  refine ⟨?_, ?_, ?_⟩
  · have h := runEvents_loadInv cfg evs initLoadState (Or.inl rfl)
    rcases h with h | ⟨_, hr⟩
    · rw [h]; decide
    · exact hr
  · intro ev s
    exact ⟨rfl, rfl, rfl, rfl⟩
  · intro e s h
    exact step_of_completed cfg e s h

/-- C2 witness: the race scenario from the spec — success and failure
both fire, then the timer, then success again: exactly one report, and a
later firing on the completed state is a no-op. -/
theorem onScriptComplete_at_most_once_witness :
    (runEvents
        { chunkId := "0", src := some "https://e/0.js", loadingEnded := true }
        [LoadEvent.success, LoadEvent.failure, LoadEvent.timerFire,
          LoadEvent.success]
        initLoadState).reports ≤ 1 ∧
    completed
      { bindingActive := false, onloadAttached := false,
        onerrorAttached := false, timerActive := false, reports := 1,
        lastError := none } ∧
    step { chunkId := "0", src := some "https://e/0.js", loadingEnded := true }
        LoadEvent.failure
        { bindingActive := false, onloadAttached := false,
          onerrorAttached := false, timerActive := false, reports := 1,
          lastError := none } =
      { bindingActive := false, onloadAttached := false,
        onerrorAttached := false, timerActive := false, reports := 1,
        lastError := none } := by
  refine ⟨?_, by decide, ?_⟩
  · exact (onScriptComplete_at_most_once
      { chunkId := "0", src := some "https://e/0.js", loadingEnded := true }
      [LoadEvent.success, LoadEvent.failure, LoadEvent.timerFire,
        LoadEvent.success]).1
  · exact (onScriptComplete_at_most_once
      { chunkId := "0", src := some "https://e/0.js", loadingEnded := true }
      []).2.2 LoadEvent.failure _ (by decide)

/-- C7: every failure outcome is normalized into the structured error —
message `Loading chunk <id> failed.\n(<kind>: <address>)`, name
`ChunkLoadError`, kind `missing` for a `load`-typed event, the event's
own type otherwise (`error`, `timeout`), request the resolved address —
and the handler reports it exactly when the loading-ended hook returned
a truthy reporter, never on the success (falsy) path. -/
theorem loading_error_normalized :
    ∀ (chunkId : String) (ev : ScriptEvent),
      (fillError chunkId ev).message =
        "Loading chunk " ++ chunkId ++ " failed.\n(" ++
          (if ev.type = "load" then "missing" else ev.type) ++ ": " ++
          jsCoerce ev.targetSrc ++ ")" ∧
      (fillError chunkId ev).name = "ChunkLoadError" ∧
      (fillError chunkId ev).errType =
        (if ev.type = "load" then "missing" else ev.type) ∧
      (fillError chunkId ev).request = ev.targetSrc ∧
      (∀ cfg : LoadConfig,
        errorTypeOf (successEvent cfg) = "missing" ∧
        errorTypeOf (failureEvent cfg) = "error" ∧
        errorTypeOf (timeoutEvent cfg) = "timeout") ∧
      (∀ (cfg : LoadConfig) (s : LoadState), cfg.loadingEnded = false →
        (runHandler cfg ev s).reports = s.reports ∧
        (runHandler cfg ev s).lastError = s.lastError) ∧
      (∀ (cfg : LoadConfig) (s : LoadState), cfg.loadingEnded = true →
        (runHandler cfg ev s).reports = s.reports + 1 ∧
        (runHandler cfg ev s).lastError = some (fillError cfg.chunkId ev)) := by
  intro chunkId ev
  refine ⟨rfl, rfl, rfl, rfl, ?_, ?_, ?_⟩
  · intro cfg
    refine ⟨rfl, ?_, ?_⟩ <;>
      simp [errorTypeOf, failureEvent, timeoutEvent]
  · intro cfg s h
    simp [runHandler, h]
  · intro cfg s h
    simp [runHandler, h]

/-- C7 witness: the normalized error at a concrete chunk and timeout
event, and both reporting modes of the handler at concrete
configurations. -/
theorem loading_error_normalized_witness :
    (fillError "3" { type := "timeout", targetSrc := some "https://e/3.js" }).message =
      "Loading chunk " ++ "3" ++ " failed.\n(" ++
        (if ("timeout" : String) = "load" then "missing" else "timeout") ++
        ": " ++ jsCoerce (some "https://e/3.js") ++ ")" ∧
    (runHandler { chunkId := "3", src := some "https://e/3.js", loadingEnded := false }
        { type := "timeout", targetSrc := some "https://e/3.js" }
        initLoadState).reports = initLoadState.reports ∧
    (runHandler { chunkId := "3", src := some "https://e/3.js", loadingEnded := true }
        { type := "timeout", targetSrc := some "https://e/3.js" }
        initLoadState).reports = initLoadState.reports + 1 := by
  refine ⟨?_, ?_, ?_⟩
  · exact (loading_error_normalized "3"
      { type := "timeout", targetSrc := some "https://e/3.js" }).1
  · exact ((loading_error_normalized "3"
      { type := "timeout", targetSrc := some "https://e/3.js" }).2.2.2.2.2.1
      { chunkId := "3", src := some "https://e/3.js", loadingEnded := false }
      initLoadState rfl).1
  · exact ((loading_error_normalized "3"
      { type := "timeout", targetSrc := some "https://e/3.js" }).2.2.2.2.2.2
      { chunkId := "3", src := some "https://e/3.js", loadingEnded := true }
      initLoadState rfl).1

/-- C3: the shared first-occurrence handler, on an unmarked chunk, adds
exactly the two baseline capabilities and attaches exactly one runtime
module while marking the chunk; on a marked chunk it does nothing at
all; hence running it twice attaches exactly one runtime module and
performs the baseline additions once. -/
theorem handler_dedup :
    ∀ s : PropState,
      (s.marked = false →
        handler s =
          { marked := true,
            reqs := s.reqs ∪ {RG.moduleFactoriesAddOnly, RG.hasOwnProperty},
            attached := s.attached + 1 }) ∧
      (s.marked = true → handler s = s) ∧
      handler (handler s) = handler s ∧
      (s.marked = false →
        (handler (handler s)).attached = s.attached + 1) := by
  intro s
  have hmm : ∀ t : PropState, handler (handler t) = handler t := by
    intro t
    by_cases h : t.marked
    · simp [handler, h]
    · simp [handler, h]
  refine ⟨?_, ?_, hmm s, ?_⟩
  · intro h; simp [handler, h]
  · intro h; simp [handler, h]
  · intro h
    rw [hmm s]
    simp [handler, h]

/-- C3 witness: from a fresh chunk with empty capability set, one
handler run adds the two baseline capabilities and one attachment, and
a second run changes nothing. -/
theorem handler_dedup_witness :
    (handler { marked := false, reqs := ∅, attached := 0 } =
      { marked := true,
        reqs := (∅ : Finset RG) ∪ {RG.moduleFactoriesAddOnly, RG.hasOwnProperty},
        attached := 0 + 1 }) ∧
    handler (handler { marked := false, reqs := ∅, attached := 0 }) =
      handler { marked := false, reqs := ∅, attached := 0 } ∧
    (handler (handler { marked := false, reqs := ∅, attached := 0 })).attached =
      0 + 1 := by
  refine ⟨?_, ?_, ?_⟩
  · exact (handler_dedup { marked := false, reqs := ∅, attached := 0 }).1 rfl
  · exact (handler_dedup { marked := false, reqs := ∅, attached := 0 }).2.2.1
  · exact (handler_dedup { marked := false, reqs := ∅, attached := 0 }).2.2.2 rfl

/-- Capability additions commute. -/
theorem addReqs_comm (a b : Finset RG) (s : PropState) :
    addReqs a (addReqs b s) = addReqs b (addReqs a s) := by
  simp [addReqs, Finset.union_comm, Finset.union_left_comm]

/-- Capability additions are idempotent. -/
theorem addReqs_idem (a : Finset RG) (s : PropState) :
    addReqs a (addReqs a s) = addReqs a s := by
  simp [addReqs, Finset.union_assoc]

/-- The shared handler commutes with any capability addition. -/
theorem handler_addReqs (a : Finset RG) (s : PropState) :
    handler (addReqs a s) = addReqs a (handler s) := by
  by_cases h : s.marked
  · simp [handler, addReqs, h]
  · simp [handler, addReqs, h, Finset.union_comm, Finset.union_left_comm]

/-- The shared handler is idempotent. -/
theorem handler_idem (s : PropState) : handler (handler s) = handler s := by
  by_cases h : s.marked <;> simp [handler, h]

/-- Any function commuting with `handler` and with capability additions
commutes with the tree-wide listener. -/
theorem treeListener_comm (f : PropState → PropState)
    (hH : ∀ s, f (handler s) = handler (f s))
    (hA : ∀ (a : Finset RG) (s : PropState), f (addReqs a s) = addReqs a (f s)) :
    ∀ (wd : Bool) (s : PropState),
      f (treeListener wd s) = treeListener wd (f s) := by
  intro wd s
  cases wd <;> simp [treeListener, hH, hA]

/-- The shared handler commutes with the tree-wide listener. -/
theorem handler_tree (wd : Bool) (s : PropState) :
    handler (treeListener wd s) = treeListener wd (handler s) :=
  treeListener_comm handler (fun _ => rfl) handler_addReqs wd s

/-- Capability additions commute with the tree-wide listener. -/
theorem addReqs_tree (b : Finset RG) (wd : Bool) (s : PropState) :
    addReqs b (treeListener wd s) = treeListener wd (addReqs b s) :=
  treeListener_comm (addReqs b) (fun s => (handler_addReqs b s).symm)
    (fun a s => addReqs_comm b a s) wd s

/-- The tree-wide listener is idempotent. -/
theorem treeListener_idem (wd : Bool) (s : PropState) :
    treeListener wd (treeListener wd s) = treeListener wd s := by
  cases wd
  · simp [treeListener]
  · by_cases h : s.marked <;>
      · simp [treeListener, handler, addReqs, h]
        ext x
        simp [Finset.mem_union]
        tauto

/-- All listener functions that can fire for a chunk in one pass. -/
def allListeners (wd : Bool) : List (PropState → PropState) :=
  [handler, ensureChunkListener, hmrDownloadListener, hmrManifestListener,
    treeListener wd]

theorem mem_passListeners (ec hd hm wd : Bool) (f : PropState → PropState)
    (h : f ∈ passListeners ec hd hm wd) : f ∈ allListeners wd := by
  cases ec <;> cases hd <;> cases hm <;>
    simp [passListeners, allListeners] at h ⊢ <;> tauto

theorem comm_allListeners (wd : Bool) :
    ∀ f ∈ allListeners wd, ∀ g ∈ allListeners wd, ∀ s : PropState,
      f (g s) = g (f s) := by
  intro f hf g hg s
  simp [allListeners] at hf hg
  rcases hf with rfl | rfl | rfl | rfl | rfl <;>
    rcases hg with rfl | rfl | rfl | rfl | rfl <;>
      first
        | rfl
        | exact handler_addReqs _ _
        | exact (handler_addReqs _ _).symm
        | exact addReqs_comm _ _ _
        | exact handler_tree _ _
        | exact (handler_tree _ _).symm
        | exact addReqs_tree _ _ _
        | exact (addReqs_tree _ _ _).symm

theorem idem_allListeners (wd : Bool) :
    ∀ f ∈ allListeners wd, ∀ s : PropState, f (f s) = f s := by
  intro f hf s
  simp [allListeners] at hf
  rcases hf with rfl | rfl | rfl | rfl | rfl <;>
    first
      | exact handler_idem _
      | exact addReqs_idem _ _
      | exact treeListener_idem _ _

theorem runPass_cons (f : PropState → PropState)
    (ls : List (PropState → PropState)) (s : PropState) :
    runPass (f :: ls) s = runPass ls (f s) := rfl

/-- A function commuting with every listener of a pass commutes with the
whole pass. -/
theorem comm_runPass (f : PropState → PropState)
    (ls : List (PropState → PropState))
    (h : ∀ g ∈ ls, ∀ s : PropState, f (g s) = g (f s)) :
    ∀ s : PropState, f (runPass ls s) = runPass ls (f s) := by
  induction ls with
  | nil => intro s; rfl
  | cons g t ih =>
    intro s
    rw [runPass_cons, runPass_cons,
      ih (fun x hx => h x (List.mem_cons_of_mem g hx)) (g s),
      h g (List.mem_cons_self g t) s]

/-- A pass of pairwise-commuting, idempotent listeners is idempotent. -/
theorem runPass_twice (ls : List (PropState → PropState))
    (hcomm : ∀ x ∈ ls, ∀ y ∈ ls, ∀ s : PropState, x (y s) = y (x s))
    (hidem : ∀ x ∈ ls, ∀ s : PropState, x (x s) = x s) (s : PropState) :
    runPass ls (runPass ls s) = runPass ls s := by
  induction ls generalizing s with
  | nil => rfl
  | cons f t ih =>
    rw [runPass_cons, runPass_cons,
      comm_runPass f t
        (fun g hg => hcomm f (List.mem_cons_self f t) g
          (List.mem_cons_of_mem f hg)) (f s),
      hidem f (List.mem_cons_self f t) s]
    exact ih
      (fun x hx y hy => hcomm x (List.mem_cons_of_mem f hx) y
        (List.mem_cons_of_mem f hy))
      (fun x hx => hidem x (List.mem_cons_of_mem f hx)) (f s)

/-- C4: the state a propagation pass produces for a chunk is the same
for every order of its listeners (the shared handler fired by each of
the three triggers, the three trigger-specific listeners, and the
tree-wide deferred-entry listener), and running the whole pass a second
time on the resulting state changes nothing. -/
theorem propagation_order_independent_idempotent :
    ∀ (ec hd hm wd : Bool) (s : PropState)
      (ls : List (PropState → PropState)),
      ls.Perm (passListeners ec hd hm wd) →
      runPass ls s = runPass (passListeners ec hd hm wd) s ∧
      runPass (passListeners ec hd hm wd)
          (runPass (passListeners ec hd hm wd) s) =
        runPass (passListeners ec hd hm wd) s := by
  intro ec hd hm wd s ls hperm
  have hcomm : ∀ x ∈ passListeners ec hd hm wd,
      ∀ y ∈ passListeners ec hd hm wd, ∀ s : PropState, x (y s) = y (x s) :=
    fun x hx y hy =>
      comm_allListeners wd x (mem_passListeners ec hd hm wd x hx) y
        (mem_passListeners ec hd hm wd y hy)
  constructor
  · refine hperm.foldl_eq' ?_ s
    intro x hx y hy z
    exact hcomm y (hperm.mem_iff.mp hy) x (hperm.mem_iff.mp hx) z
  · exact runPass_twice (passListeners ec hd hm wd) hcomm
      (fun x hx => idem_allListeners wd x (mem_passListeners ec hd hm wd x hx))
      s

/-- C4 witness: with the ensure-chunk trigger and the deferred-entry
policy active, swapping the shared handler and the ensure-chunk listener
yields the same state, and a second pass is a no-op. -/
theorem propagation_order_independent_idempotent_witness :
    runPass [ensureChunkListener, handler, treeListener true]
        { marked := false, reqs := ∅, attached := 0 } =
      runPass (passListeners true false false true)
        { marked := false, reqs := ∅, attached := 0 } ∧
    runPass (passListeners true false false true)
        (runPass (passListeners true false false true)
          { marked := false, reqs := ∅, attached := 0 }) =
      runPass (passListeners true false false true)
        { marked := false, reqs := ∅, attached := 0 } :=
  propagation_order_independent_idempotent true false false true
    { marked := false, reqs := ∅, attached := 0 }
    [ensureChunkListener, handler, treeListener true]
    (List.Perm.swap handler ensureChunkListener [treeListener true])

/-- C8: the chunk-hash contributor adds nothing for a runtime chunk;
for every other chunk it feeds in exactly the component identifier, the
format-version literal, the serialized entry info, the jsonp (queue)
function name, the hot-update function name and the global-object
expression, in that order; the contribution never depends on the chunk's
module code, and two non-runtime contributions agree exactly when those
four chunk/option inputs agree. -/
theorem chunkHash_contribution :
    ∀ (c : ChunkForHash) (o : HashOptions),
      (c.hasRuntime = true → chunkHashUpdates c o = []) ∧
      (c.hasRuntime = false →
        chunkHashUpdates c o =
          ["JsonpTemplatePlugin", "1", c.entryInfo,
           o.jsonpFunction, o.hotUpdateFunction, o.globalObject]) ∧
      (∀ m : String,
        chunkHashUpdates { c with moduleCode := m } o = chunkHashUpdates c o) ∧
      (∀ (c' : ChunkForHash) (o' : HashOptions),
        c.hasRuntime = false → c'.hasRuntime = false →
        (chunkHashUpdates c o = chunkHashUpdates c' o' ↔
          (c.entryInfo = c'.entryInfo ∧
           o.jsonpFunction = o'.jsonpFunction ∧
           o.hotUpdateFunction = o'.hotUpdateFunction ∧
           o.globalObject = o'.globalObject))) := by
  intro c o
  refine ⟨?_, ?_, ?_, ?_⟩
  · intro h; simp [chunkHashUpdates, h]
  · intro h; simp [chunkHashUpdates, h]
  · intro m; simp [chunkHashUpdates]
  · intro c' o' h h'
    simp [chunkHashUpdates, h, h']

/-- C8 witness: a runtime chunk contributes nothing; a non-runtime chunk
contributes the six values; the contribution ignores module code and
detects an entry-info change. -/
theorem chunkHash_contribution_witness :
    chunkHashUpdates
        { hasRuntime := true, entryInfo := "[]", moduleCode := "m" }
        { jsonpFunction := "webpackJsonp", hotUpdateFunction := "webpackHotUpdate",
          globalObject := "window" } = [] ∧
    chunkHashUpdates
        { hasRuntime := false, entryInfo := "[]", moduleCode := "m" }
        { jsonpFunction := "webpackJsonp", hotUpdateFunction := "webpackHotUpdate",
          globalObject := "window" } =
      ["JsonpTemplatePlugin", "1", "[]", "webpackJsonp", "webpackHotUpdate",
       "window"] ∧
    chunkHashUpdates
        { hasRuntime := false, entryInfo := "[]", moduleCode := "changed" }
        { jsonpFunction := "webpackJsonp", hotUpdateFunction := "webpackHotUpdate",
          globalObject := "window" } =
      chunkHashUpdates
        { hasRuntime := false, entryInfo := "[]", moduleCode := "m" }
        { jsonpFunction := "webpackJsonp", hotUpdateFunction := "webpackHotUpdate",
          globalObject := "window" } ∧
    ¬(chunkHashUpdates
        { hasRuntime := false, entryInfo := "[[[1],1]]", moduleCode := "m" }
        { jsonpFunction := "webpackJsonp", hotUpdateFunction := "webpackHotUpdate",
          globalObject := "window" } =
      chunkHashUpdates
        { hasRuntime := false, entryInfo := "[]", moduleCode := "m" }
        { jsonpFunction := "webpackJsonp", hotUpdateFunction := "webpackHotUpdate",
          globalObject := "window" }) := by
  refine ⟨?_, ?_, ?_, ?_⟩
  · exact (chunkHash_contribution
      { hasRuntime := true, entryInfo := "[]", moduleCode := "m" }
      { jsonpFunction := "webpackJsonp", hotUpdateFunction := "webpackHotUpdate",
        globalObject := "window" }).1 rfl
  · exact (chunkHash_contribution
      { hasRuntime := false, entryInfo := "[]", moduleCode := "m" }
      { jsonpFunction := "webpackJsonp", hotUpdateFunction := "webpackHotUpdate",
        globalObject := "window" }).2.1 rfl
  · exact (chunkHash_contribution
      { hasRuntime := false, entryInfo := "[]", moduleCode := "m" }
      { jsonpFunction := "webpackJsonp", hotUpdateFunction := "webpackHotUpdate",
        globalObject := "window" }).2.2.1 "changed"
  · intro hEq
    have h := ((chunkHash_contribution
      { hasRuntime := false, entryInfo := "[[[1],1]]", moduleCode := "m" }
      { jsonpFunction := "webpackJsonp", hotUpdateFunction := "webpackHotUpdate",
        globalObject := "window" }).2.2.2
      { hasRuntime := false, entryInfo := "[]", moduleCode := "m" }
      { jsonpFunction := "webpackJsonp", hotUpdateFunction := "webpackHotUpdate",
        globalObject := "window" } rfl rfl).mp hEq
    exact absurd h.1 (by decide)

/-- C9: `getCompilationHooks` rejects anything that is not a
`Compilation` with a type error and leaves the registry untouched; on a
compilation seen before it returns the cached hooks object unchanged;
on a first call it creates four pairwise-distinct pipelines, caches
them, and every later call for the same compilation returns that very
hooks object and registry. -/
theorem getCompilationHooks_caching :
    ∀ (reg : HooksRegistry) (i : Nat),
      (getCompilationHooks CompilationArg.notCompilation reg =
        (Except.error
          "The 'compilation' argument must be an instance of Compilation",
         reg)) ∧
      (∀ h : JsonpHooks, reg.table.lookup i = some h →
        getCompilationHooks (CompilationArg.compilation i) reg =
          (Except.ok h, reg)) ∧
      (reg.table.lookup i = none →
        ∃ (h : JsonpHooks) (reg' : HooksRegistry),
          getCompilationHooks (CompilationArg.compilation i) reg =
            (Except.ok h, reg') ∧
          h.jsonpScriptId ≠ h.linkPreloadId ∧
          h.jsonpScriptId ≠ h.linkPrefetchId ∧
          h.jsonpScriptId ≠ h.mutateTagId ∧
          h.linkPreloadId ≠ h.linkPrefetchId ∧
          h.linkPreloadId ≠ h.mutateTagId ∧
          h.linkPrefetchId ≠ h.mutateTagId ∧
          getCompilationHooks (CompilationArg.compilation i) reg' =
            (Except.ok h, reg')) := by
  intro reg i
  refine ⟨rfl, ?_, ?_⟩
  · intro h hl
    simp [getCompilationHooks, hl]
  · intro hl
    refine ⟨{ jsonpScriptId := reg.fresh, linkPreloadId := reg.fresh + 1,
              linkPrefetchId := reg.fresh + 2, mutateTagId := reg.fresh + 3 },
            { table :=
                (i, { jsonpScriptId := reg.fresh, linkPreloadId := reg.fresh + 1,
                      linkPrefetchId := reg.fresh + 2,
                      mutateTagId := reg.fresh + 3 }) :: reg.table,
              fresh := reg.fresh + 4 },
            ?_, ?_, ?_, ?_, ?_, ?_, ?_, ?_⟩
    · simp [getCompilationHooks, hl]
    · simp
    · simp
    · simp
    · simp
    · simp
    · simp
    · simp [getCompilationHooks, hl, List.lookup]

/-- C9 witness: on the empty registry, the type error leaves the
registry unchanged, the first call for compilation `0` caches four
distinct pipelines, and the second call returns the same object. -/
theorem getCompilationHooks_caching_witness :
    (getCompilationHooks CompilationArg.notCompilation
        { table := [], fresh := 0 } =
      (Except.error
        "The 'compilation' argument must be an instance of Compilation",
       { table := [], fresh := 0 })) ∧
    (∃ (h : JsonpHooks) (reg' : HooksRegistry),
      getCompilationHooks (CompilationArg.compilation 0)
          { table := [], fresh := 0 } = (Except.ok h, reg') ∧
      h.jsonpScriptId ≠ h.linkPreloadId ∧
      h.jsonpScriptId ≠ h.linkPrefetchId ∧
      h.jsonpScriptId ≠ h.mutateTagId ∧
      h.linkPreloadId ≠ h.linkPrefetchId ∧
      h.linkPreloadId ≠ h.mutateTagId ∧
      h.linkPrefetchId ≠ h.mutateTagId ∧
      getCompilationHooks (CompilationArg.compilation 0) reg' =
        (Except.ok h, reg')) :=
  ⟨(getCompilationHooks_caching { table := [], fresh := 0 } 0).1,
   (getCompilationHooks_caching { table := [], fresh := 0 } 0).2.2 rfl⟩

end Jsonp
